import Mathlib

/-!
SendFuturesEntry: the entry form of the future-payment dialog.

A shallow embedding of `src/qt/sendfuturesentry.cpp`.  The entry is a Qt
widget; its state is the stored recipient, the wallet-model pointer, the
displayed page of the stacked widget and the contents of the form controls.
Every member function becomes a function on that state.  Clock reads
(`QDateTime::currentDateTime()`) are explicit arguments.

Code that the file calls but that lives elsewhere (the amount widget, the
wallet model, the fee, dust and formatting helpers) is taken as a parameter:
`Collab` for free functions and widget classes, `WalletModel` for the object
behind the `model` pointer.
-/

namespace SendFutures

/-- Amounts are `int64_t` counts of the smallest unit; the entry only compares and copies them. -/
abbrev CAmount := Int

/-! ## Qt value types -/

/-- A `QDateTime`: validity and milliseconds since the epoch. -/
structure QDateTime where
  valid : Bool
  msecs : Int
deriving DecidableEq

/-- The `QDateTime::secsTo` of Qt: whole seconds from `self` to `other`
(the millisecond difference divided by 1000, rounding toward zero), 0 when
either side is invalid. -/
def QDateTime.secsTo (self other : QDateTime) : Int :=
  if self.valid && other.valid then (other.msecs - self.msecs).tdiv 1000 else 0

/-- A valid `QDateTime` that lies `secs` seconds after `self`. -/
def QDateTime.addSecs (self : QDateTime) (secs : Int) : QDateTime :=
  { self with msecs := self.msecs + 1000 * secs }

/-- The `QString::number(qint64)` of Qt: the decimal rendering. -/
def QString.number (n : Int) : String := toString n

/-- One cell of a `QStandardItemModel`: its text and its user data. -/
structure QStandardItem where
  text : String
  data : Option Nat
deriving DecidableEq

/-- A `QComboBox` with its item model: header labels, rows of cells, the
current row (-1 when none) and the enabled flag. -/
structure QComboBox where
  headers : List String
  rows : List (List QStandardItem)
  currentIndex : Int
  enabled : Bool
deriving DecidableEq

/-- The text of the first cell of the current row, empty when no row is current. -/
def QComboBox.currentText (c : QComboBox) : String :=
  if 0 ≤ c.currentIndex then
    match c.rows[c.currentIndex.toNat]? with
    | some (item :: _) => item.text
    | _ => ""
  else ""

/-- Replacing the item model: Qt makes the first row current (none when the model is empty). -/
def QComboBox.setModel (c : QComboBox) (headers : List String)
    (rows : List (List QStandardItem)) : QComboBox :=
  { c with headers := headers, rows := rows, currentIndex := if rows = [] then -1 else 0 }

/-- The `QComboBox::setCurrentIndex` of Qt: a row index outside the model leaves no current row. -/
def QComboBox.setCurrentIndex (c : QComboBox) (index : Int) : QComboBox :=
  { c with currentIndex := if 0 ≤ index ∧ index < c.rows.length then index else -1 }

/-- A `QValidatedLineEdit`: its text and the highlight flag written by `setValid`. -/
structure QValidatedLineEdit where
  text : String
  valid : Bool
deriving DecidableEq

/-! ## The recipient record -/

/-- The payment-request member of a recipient; `details` is absent until a request is loaded. -/
structure PaymentRequestPlus where
  details : Option (List Nat)
deriving DecidableEq

/-- Whether a payment request has been loaded. -/
def PaymentRequestPlus.IsInitialized (p : PaymentRequestPlus) : Bool := p.details.isSome

/-- The fields of the recipient record that the entry reads or writes. -/
structure SendCoinsRecipient where
  payFrom : String
  address : String
  label : String
  amount : CAmount
  maturity : Int
  locktime : Int
  message : String
  fSubtractFeeFromAmount : Bool
  paymentRequest : PaymentRequestPlus
  authenticatedMerchant : String
deriving DecidableEq

/-! ## Collaborators outside the file -/

/-- The member functions of the amount widget (`BitcoinAmountField`) that the
entry calls, over the widget state `W`. -/
structure AmountField (W : Type) where
  clear : W → W
  validate : W → Bool × W
  value : W → CAmount
  setValue : CAmount → W → W
  setValid : Bool → W → W
  setDisplayUnit : Int → W → W
  setReadOnly : Bool → W → W

/-- Free functions and constants used by the entry: the amount widget, the
future-transaction fee, the dust test, amount formatting, address rendering
for a destination `D`, and `QString::toInt`. -/
structure Collab (D W : Type) where
  amountField : AmountField W
  getFutureFees : CAmount
  isDust : String → CAmount → Bool
  format : Int → CAmount → String
  getAmountColumnTitle : Int → String
  ToString : D → String
  HtmlEscape : String → String
  toInt : String → Int

/-- The options model behind `getOptionsModel()`. -/
structure OptionsModel where
  getDisplayUnit : Int
deriving DecidableEq

/-- What the object behind the `model` pointer answers at the time of a call.
`labelForAddress` and `labelForDestination` are the two overloads of the
lookup of the address table. -/
structure WalletModel (D : Type) where
  validateAddress : String → Bool
  getOptionsModel : Option OptionsModel
  getAddressBalances : List (D × CAmount)
  labelForAddress : String → String
  labelForDestination : D → String

/-! ## The entry -/

/-- The three pages of the stacked widget. -/
inductive Page where
  | SendFutures
  | SendCoins_UnauthenticatedPaymentRequest
  | SendCoins_AuthenticatedPaymentRequest
deriving DecidableEq

/-- The form controls the entry reads or writes. -/
structure Ui (W : Type) where
  payFrom : QComboBox
  payTo : QValidatedLineEdit
  addAsLabel : String
  payAmount : W
  checkboxSubtractFeeFromAmount : Bool
  messageTextLabel : String
  messageTextLabelVisible : Bool
  messageLabelVisible : Bool
  ftxMaturity : Int
  ftxLockTime : QDateTime
  ftxLockTimeField : String
  payTo_is : String
  memoTextLabel_is : String
  payAmount_is : W
  payTo_s : String
  memoTextLabel_s : String
  payAmount_s : W

/-- The entry: stored recipient, form controls, wallet-model pointer and displayed page. -/
structure SendFuturesEntry (D W : Type) where
  recipient : SendCoinsRecipient
  ui : Ui W
  model : Option (WalletModel D)
  currentWidget : Page

namespace SendFuturesEntry

variable {D W : Type}

/-- The constructor: `form` is the control tree built by `setupUi` and
`recipient` the default-constructed recipient member (its class is declared
in walletmodel.h); the date-time control is set to the clock, the normal
page is shown, no model. -/
def new (form : Ui W) (recipient : SendCoinsRecipient) (currentDateTime : QDateTime) :
    SendFuturesEntry D W :=
  { recipient := recipient
    ui := { form with ftxLockTime := currentDateTime }
    model := none
    currentWidget := Page.SendFutures }

/-- Fill in the label from the address book when the address has one. -/
def updateLabel (s : SendFuturesEntry D W) (address : String) : Bool × SendFuturesEntry D W :=
  match s.model with
  | none => (false, s)
  | some m =>
    let associatedLabel := m.labelForAddress address
    if associatedLabel ≠ "" then
      (true, { s with ui.addAsLabel := associatedLabel })
    else
      (false, s)

/-- Slot run when the text of `payTo` changes. -/
def on_payTo_textChanged (s : SendFuturesEntry D W) (address : String) : SendFuturesEntry D W :=
  (s.updateLabel address).2

/-- The call `ui->payTo->setText(text)`: the text is stored and, when it
differs from the old one, the `textChanged` slot runs. -/
def payTo_setText (s : SendFuturesEntry D W) (text : String) : SendFuturesEntry D W :=
  if s.ui.payTo.text = text then s
  else on_payTo_textChanged { s with ui.payTo.text := text } text

/-- The value of the local `futureTime` of `getLockTime`: seconds from the
clock to the chosen date-time when positive, else -1. -/
def futureTime (currentDateTime dateTime : QDateTime) : Int :=
  if currentDateTime.secsTo dateTime > 0 then currentDateTime.secsTo dateTime else -1

/-- Slot run when the date-time control changes: store the lock-time as text. -/
def getLockTime (s : SendFuturesEntry D W) (currentDateTime dateTime : QDateTime) :
    SendFuturesEntry D W :=
  { s with ui.ftxLockTimeField := QString.number (futureTime currentDateTime dateTime) }

/-- The call `ui->ftxLockTime->setDateTime(dateTime)`: the value is stored
and, when it differs from the old one, the `dateTimeChanged` slot runs with
its own clock read `clock`. -/
def ftxLockTime_setDateTime (s : SendFuturesEntry D W) (dateTime clock : QDateTime) :
    SendFuturesEntry D W :=
  if s.ui.ftxLockTime = dateTime then s
  else getLockTime { s with ui.ftxLockTime := dateTime } clock dateTime

/-- The placeholder row of the source table. -/
def placeholder : List QStandardItem := [⟨"Select a Raptoreum address", none⟩]

/-- The three cells built for one balance entry: address, label, amount
(data is the `quint64` cast of the balance, text its formatted value). -/
def balanceRow (env : Collab D W) (m : WalletModel D) (unit : Int) (balance : D × CAmount) :
    List QStandardItem :=
  [ ⟨env.HtmlEscape (env.ToString balance.1), none⟩,
    ⟨m.labelForDestination balance.1, none⟩,
    ⟨env.format unit balance.2, some (balance.2 % 2 ^ 64).toNat⟩ ]

/-- Rebuild the source table of the `payFrom` combo box and select row `selected`. -/
def setupPayFrom (env : Collab D W) (s : SendFuturesEntry D W) (selected : Int) :
    SendFuturesEntry D W :=
  match s.model with
  | none => s
  | some m =>
    match m.getOptionsModel with
    | none => s
    | some o =>
      let nMinAmount := env.getFutureFees
      let balances := m.getAddressBalances
      if balances.isEmpty then
        { s with ui.payFrom.enabled := false }
      else
        let horzHeaders := ["Address", "Label", env.getAmountColumnTitle o.getDisplayUnit]
        let rows := placeholder ::
          (balances.filter (fun balance => decide (balance.2 ≥ nMinAmount))).map
            (balanceRow env m o.getDisplayUnit)
        { s with ui.payFrom := (s.ui.payFrom.setModel horzHeaders rows).setCurrentIndex selected }

/-- Slot of the balance-changed notification of the wallet. -/
def balanceChange (env : Collab D W) (s : SendFuturesEntry D W) (_balance : CAmount) :
    SendFuturesEntry D W :=
  setupPayFrom env s 0

/-- Slot of the display-unit change: re-unit the amount widgets and rebuild
the source table keeping the current row index. -/
def updateDisplayUnit (env : Collab D W) (s : SendFuturesEntry D W) : SendFuturesEntry D W :=
  match s.model with
  | none => s
  | some m =>
    match m.getOptionsModel with
    | none => s
    | some o =>
      let s1 : SendFuturesEntry D W :=
        { s with
          ui.payAmount := env.amountField.setDisplayUnit o.getDisplayUnit s.ui.payAmount
          ui.payAmount_is := env.amountField.setDisplayUnit o.getDisplayUnit s.ui.payAmount_is
          ui.payAmount_s := env.amountField.setDisplayUnit o.getDisplayUnit s.ui.payAmount_s }
      setupPayFrom env s1 s1.ui.payFrom.currentIndex

/-- The first part of `clear`: empty the controls of the three pages.  `now`
is the clock read by `clear` itself, `clock` the one read by the date-time
slot that the change of the date-time control may trigger. -/
def clearFields (env : Collab D W) (s : SendFuturesEntry D W) (now clock : QDateTime) :
    SendFuturesEntry D W :=
  -- clear UI elements for future payment
  let s1 := s.payTo_setText ""
  let s2 : SendFuturesEntry D W :=
    { s1 with
      ui.addAsLabel := ""
      ui.payAmount := env.amountField.clear s1.ui.payAmount
      ui.checkboxSubtractFeeFromAmount := false
      ui.messageTextLabel := ""
      ui.messageTextLabelVisible := false
      ui.messageLabelVisible := false
      ui.ftxMaturity := -1 }
  let s3 := s2.ftxLockTime_setDateTime now clock
  -- clear UI elements for the two kinds of payment request
  { s3 with
    ui.payTo_is := ""
    ui.memoTextLabel_is := ""
    ui.payAmount_is := env.amountField.clear s3.ui.payAmount_is
    ui.payTo_s := ""
    ui.memoTextLabel_s := ""
    ui.payAmount_s := env.amountField.clear s3.ui.payAmount_s }

/-- Empty the controls of all three pages, then update the display unit. -/
def clear (env : Collab D W) (s : SendFuturesEntry D W) (now clock : QDateTime) :
    SendFuturesEntry D W :=
  updateDisplayUnit env (s.clearFields env now clock)

/-- Attach (or detach) the wallet model, build the source table, clear the form. -/
def setModel (env : Collab D W) (s : SendFuturesEntry D W) (_model : Option (WalletModel D))
    (now clock : QDateTime) : SendFuturesEntry D W :=
  let s1 : SendFuturesEntry D W := { s with model := _model }
  let s2 :=
    match _model with
    | none => s1
    | some m =>
      match m.getOptionsModel with
      | none => s1
      | some _ => setupPayFrom env s1 0
  clear env s2 now clock

/-- Check the form; the state returned carries the highlight flags set on the way. -/
def validate (env : Collab D W) (s : SendFuturesEntry D W) : Bool × SendFuturesEntry D W :=
  match s.model with
  | none => (false, s)
  | some m =>
    if s.recipient.paymentRequest.IsInitialized then (true, s)
    else
      let retval := true
      let retval := if !m.validateAddress s.ui.payFrom.currentText then false else retval
      let (retval, s) :=
        if !m.validateAddress s.ui.payTo.text then
          (false, ({ s with ui.payTo.valid := false } : SendFuturesEntry D W))
        else (retval, s)
      let checked := env.amountField.validate s.ui.payAmount
      let s : SendFuturesEntry D W := { s with ui.payAmount := checked.2 }
      let retval := if !checked.1 then false else retval
      let (retval, s) :=
        if env.amountField.value s.ui.payAmount ≤ 0 then
          (false, ({ s with ui.payAmount := env.amountField.setValid false s.ui.payAmount } :
            SendFuturesEntry D W))
        else (retval, s)
      if retval && env.isDust s.ui.payTo.text (env.amountField.value s.ui.payAmount) then
        (false, { s with ui.payAmount := env.amountField.setValid false s.ui.payAmount })
      else (retval, s)

/-- Read the recipient off the form (or return the stored payment request). -/
def getValue (env : Collab D W) (s : SendFuturesEntry D W) :
    SendCoinsRecipient × SendFuturesEntry D W :=
  if s.recipient.paymentRequest.IsInitialized then (s.recipient, s)
  else
    let recipient : SendCoinsRecipient :=
      { s.recipient with
        payFrom := s.ui.payFrom.currentText
        address := s.ui.payTo.text
        label := s.ui.addAsLabel
        amount := env.amountField.value s.ui.payAmount
        maturity := s.ui.ftxMaturity
        locktime := env.toInt s.ui.ftxLockTimeField
        message := s.ui.messageTextLabel
        fSubtractFeeFromAmount := s.ui.checkboxSubtractFeeFromAmount }
    (recipient, { s with recipient := recipient })

/-- Store a recipient and show it on the form. -/
def setValue (env : Collab D W) (s : SendFuturesEntry D W) (value : SendCoinsRecipient) :
    SendFuturesEntry D W :=
  let s : SendFuturesEntry D W := { s with recipient := value }
  if s.recipient.paymentRequest.IsInitialized then
    if s.recipient.authenticatedMerchant.isEmpty then
      { s with
        ui.payTo_is := s.recipient.address
        ui.memoTextLabel_is := s.recipient.message
        ui.payAmount_is := env.amountField.setReadOnly true
          (env.amountField.setValue s.recipient.amount s.ui.payAmount_is)
        currentWidget := Page.SendCoins_UnauthenticatedPaymentRequest }
    else
      { s with
        ui.payTo_s := s.recipient.authenticatedMerchant
        ui.memoTextLabel_s := s.recipient.message
        ui.payAmount_s := env.amountField.setReadOnly true
          (env.amountField.setValue s.recipient.amount s.ui.payAmount_s)
        currentWidget := Page.SendCoins_AuthenticatedPaymentRequest }
  else
    let s1 : SendFuturesEntry D W :=
      { s with
        ui.messageTextLabel := s.recipient.message
        ui.messageTextLabelVisible := !s.recipient.message.isEmpty
        ui.messageLabelVisible := !s.recipient.message.isEmpty
        ui.addAsLabel := "" }
    let s2 := s1.payTo_setText s1.recipient.address
    let s3 : SendFuturesEntry D W :=
      if !s2.recipient.label.isEmpty then { s2 with ui.addAsLabel := s2.recipient.label } else s2
    { s3 with ui.payAmount := env.amountField.setValue s3.recipient.amount s3.ui.payAmount }

/-- Put an address into the destination field. -/
def setAddress (s : SendFuturesEntry D W) (address : String) : SendFuturesEntry D W :=
  s.payTo_setText address

/-- The user picks row `index` of the source combo box. -/
def choosePayFrom (s : SendFuturesEntry D W) (index : Int) : SendFuturesEntry D W :=
  { s with ui.payFrom := s.ui.payFrom.setCurrentIndex index }

/-- Whether the destination fields of all three pages are empty. -/
def isClear (s : SendFuturesEntry D W) : Bool :=
  s.ui.payTo.text.isEmpty && s.ui.payTo_is.isEmpty && s.ui.payTo_s.isEmpty

end SendFuturesEntry

section Derived

variable {D W : Type}

open SendFuturesEntry

/-- The amount widget as `validate` reads it: after its own validation ran. -/
def validatedAmount (env : Collab D W) (s : SendFuturesEntry D W) : CAmount :=
  env.amountField.value (env.amountField.validate s.ui.payAmount).2

/-- The rows `setupPayFrom` builds for wallet `m` with display unit `o`. -/
def sourceRows (env : Collab D W) (m : WalletModel D) (o : OptionsModel) :
    List (List QStandardItem) :=
  placeholder ::
    (m.getAddressBalances.filter (fun balance => decide (balance.2 ≥ env.getFutureFees))).map
      (balanceRow env m o.getDisplayUnit)

end Derived

/-! ## Sample collaborators for the scenarios -/

/-- A small amount widget: the held value, highlight flag, unit and read-only flag. -/
structure SampleAmount where
  held : CAmount
  valid : Bool
  unit : Int
  readOnly : Bool
deriving DecidableEq

/-- The sample widget accepts non-negative values and reads back what it holds. -/
def sampleAmountField : AmountField SampleAmount :=
  { clear := fun w => { w with held := 0, valid := true }
    validate := fun w => (decide (0 ≤ w.held), { w with valid := decide (0 ≤ w.held) })
    value := fun w => w.held
    setValue := fun a w => { w with held := a }
    setValid := fun b w => { w with valid := b }
    setDisplayUnit := fun u w => { w with unit := u }
    setReadOnly := fun b w => { w with readOnly := b } }

/-- The number written by a non-empty run of decimal digits. -/
def decimalValue (cs : List Char) : Option Nat :=
  if cs.isEmpty then none
  else cs.foldl
    (fun acc c => acc.bind (fun n => if c.isDigit then some (10 * n + (c.toNat - 48)) else none))
    (some 0)

/-- A sample `QString::toInt`: an optionally signed decimal number within the
32-bit range, 0 for anything else. -/
def sampleToInt (t : String) : Int :=
  let v : Option Int :=
    match t.data with
    | '-' :: ds => (decimalValue ds).map (fun n => -(n : Int))
    | ds => (decimalValue ds).map (fun n => (n : Int))
  match v with
  | some n => if -2147483648 ≤ n ∧ n ≤ 2147483647 then n else 0
  | none => 0

/-- Sample free functions: fee 100, amounts below 10 are dust, addresses print as themselves. -/
def sampleCollab : Collab String SampleAmount :=
  { amountField := sampleAmountField
    getFutureFees := 100
    isDust := fun _ a => decide (a < 10)
    format := fun _ _ => "amount"
    getAmountColumnTitle := fun _ => "Amount"
    ToString := fun d => d
    HtmlEscape := fun t => t
    toInt := sampleToInt }

/-- A wallet holding 500 on addrA and 50 on addrB. -/
def sampleWallet : WalletModel String :=
  { validateAddress := fun a => a == "addrA" || a == "addrB" || a == "dest"
    getOptionsModel := some ⟨0⟩
    getAddressBalances := [("addrA", 500), ("addrB", 50)]
    labelForAddress := fun _ => ""
    labelForDestination := fun _ => "" }

/-- The same wallet after addrA has dropped to 50 and addrB has risen to 500. -/
def sampleWalletLater : WalletModel String :=
  { sampleWallet with getAddressBalances := [("addrA", 50), ("addrB", 500)] }

/-- A form with every control empty. -/
def blankForm : Ui SampleAmount :=
  { payFrom := ⟨[], [], -1, true⟩
    payTo := ⟨"", true⟩
    addAsLabel := ""
    payAmount := ⟨0, true, 0, false⟩
    checkboxSubtractFeeFromAmount := false
    messageTextLabel := ""
    messageTextLabelVisible := false
    messageLabelVisible := false
    ftxMaturity := 0
    ftxLockTime := ⟨true, 0⟩
    ftxLockTimeField := ""
    payTo_is := ""
    memoTextLabel_is := ""
    payAmount_is := ⟨0, true, 0, false⟩
    payTo_s := ""
    memoTextLabel_s := ""
    payAmount_s := ⟨0, true, 0, false⟩ }

/-- An empty recipient: empty strings, zero amount, maturity and lock-time
unset (-1), no payment request. -/
def emptyRecipient : SendCoinsRecipient :=
  { payFrom := "", address := "", label := "", amount := 0, maturity := -1, locktime := -1,
    message := "", fSubtractFeeFromAmount := false, paymentRequest := ⟨none⟩,
    authenticatedMerchant := "" }

/-- The clock of the scenarios. -/
def t0 : QDateTime := ⟨true, 1000000⟩

/-- A freshly constructed entry. -/
def freshEntry : SendFuturesEntry String SampleAmount :=
  SendFuturesEntry.new blankForm emptyRecipient t0

/-- A freshly constructed entry with the sample wallet attached. -/
def walletEntry : SendFuturesEntry String SampleAmount :=
  freshEntry.setModel sampleCollab (some sampleWallet) t0 t0

/-- The sample entry after the user has picked addrA, set the maturity box to
7 and moved the date-time control 3600 s ahead of the clock. -/
def preparedEntry : SendFuturesEntry String SampleAmount :=
  ({ walletEntry.choosePayFrom 1 with ui.ftxMaturity := 7 } :
    SendFuturesEntry String SampleAmount).ftxLockTime_setDateTime (t0.addSecs 3600) t0

/-- An unauthenticated payment request with empty address and amount. -/
def requestRecipient : SendCoinsRecipient :=
  { emptyRecipient with paymentRequest := ⟨some [1]⟩ }

/-- A normal recipient with every field set. -/
def normalRecipient : SendCoinsRecipient :=
  { payFrom := "addrA", address := "dest", label := "rent", amount := 250, maturity := 7,
    locktime := 3600, message := "hello", fSubtractFeeFromAmount := false,
    paymentRequest := ⟨none⟩, authenticatedMerchant := "" }

/-- The sample entry filled in for a payment of 250 to dest, with addrA
(row 1 of the source table) picked as the source. -/
def filledEntry : SendFuturesEntry String SampleAmount :=
  (walletEntry.setValue sampleCollab normalRecipient).choosePayFrom 1

/-- The wallet behind the `model` pointer now answers as `m` (the pointer itself is unchanged). -/
def walletNow (s : SendFuturesEntry String SampleAmount) (m : WalletModel String) :
    SendFuturesEntry String SampleAmount :=
  { s with model := s.model.map (fun _ => m) }

/-- The address column of the rows after the placeholder. -/
def eligibleAddresses (c : QComboBox) : List String :=
  c.rows.tail.map (fun row => (row.head?.map (fun item => item.text)).getD "")

/-! ## Theorems -/

open SendFuturesEntry

section Frame

variable {D W : Type}

/-! What each step leaves untouched. -/

theorem updateLabel_frame (s : SendFuturesEntry D W) (a : String) :
    (s.updateLabel a).2.recipient = s.recipient ∧ (s.updateLabel a).2.model = s.model ∧
    (s.updateLabel a).2.currentWidget = s.currentWidget ∧
    (s.updateLabel a).2.ui.payTo = s.ui.payTo ∧
    (s.updateLabel a).2.ui.payFrom = s.ui.payFrom ∧
    (s.updateLabel a).2.ui.payAmount = s.ui.payAmount ∧
    (s.updateLabel a).2.ui.payTo_is = s.ui.payTo_is ∧
    (s.updateLabel a).2.ui.payTo_s = s.ui.payTo_s ∧
    (s.updateLabel a).2.ui.ftxMaturity = s.ui.ftxMaturity ∧
    (s.updateLabel a).2.ui.ftxLockTimeField = s.ui.ftxLockTimeField ∧
    (s.updateLabel a).2.ui.messageTextLabel = s.ui.messageTextLabel ∧
    (s.updateLabel a).2.ui.checkboxSubtractFeeFromAmount = s.ui.checkboxSubtractFeeFromAmount := by
  unfold SendFuturesEntry.updateLabel
  cases hm : s.model with
  | none => simp [hm]
  | some m =>
    by_cases h : m.labelForAddress a = "" <;> simp [h, hm]

theorem payTo_setText_frame (s : SendFuturesEntry D W) (t : String) :
    (s.payTo_setText t).recipient = s.recipient ∧ (s.payTo_setText t).model = s.model ∧
    (s.payTo_setText t).currentWidget = s.currentWidget ∧
    (s.payTo_setText t).ui.payTo.text = t ∧
    (s.payTo_setText t).ui.payFrom = s.ui.payFrom ∧
    (s.payTo_setText t).ui.payAmount = s.ui.payAmount ∧
    (s.payTo_setText t).ui.payTo_is = s.ui.payTo_is ∧
    (s.payTo_setText t).ui.payTo_s = s.ui.payTo_s ∧
    (s.payTo_setText t).ui.ftxMaturity = s.ui.ftxMaturity ∧
    (s.payTo_setText t).ui.ftxLockTimeField = s.ui.ftxLockTimeField ∧
    (s.payTo_setText t).ui.messageTextLabel = s.ui.messageTextLabel ∧
    (s.payTo_setText t).ui.checkboxSubtractFeeFromAmount = s.ui.checkboxSubtractFeeFromAmount := by
  unfold SendFuturesEntry.payTo_setText
  by_cases h : s.ui.payTo.text = t
  · simp [h]
  · simp only [h, if_false, SendFuturesEntry.on_payTo_textChanged]
    have hf := updateLabel_frame ({ s with ui.payTo.text := t } : SendFuturesEntry D W) t
    obtain ⟨h1, h2, h3, h4, h5, h6, h7, h8, h9, h10, h11, h12⟩ := hf
    simp [h1, h2, h3, h4, h5, h6, h7, h8, h9, h10, h11, h12]

theorem ftxLockTime_setDateTime_frame (s : SendFuturesEntry D W) (dt clock : QDateTime) :
    (s.ftxLockTime_setDateTime dt clock).recipient = s.recipient ∧
    (s.ftxLockTime_setDateTime dt clock).model = s.model ∧
    (s.ftxLockTime_setDateTime dt clock).currentWidget = s.currentWidget ∧
    (s.ftxLockTime_setDateTime dt clock).ui.payTo = s.ui.payTo ∧
    (s.ftxLockTime_setDateTime dt clock).ui.payFrom = s.ui.payFrom ∧
    (s.ftxLockTime_setDateTime dt clock).ui.payTo_is = s.ui.payTo_is ∧
    (s.ftxLockTime_setDateTime dt clock).ui.payTo_s = s.ui.payTo_s := by
  unfold SendFuturesEntry.ftxLockTime_setDateTime SendFuturesEntry.getLockTime
  by_cases h : s.ui.ftxLockTime = dt <;> simp [h]

theorem setupPayFrom_frame (env : Collab D W) (s : SendFuturesEntry D W) (i : Int) :
    (s.setupPayFrom env i).recipient = s.recipient ∧
    (s.setupPayFrom env i).model = s.model ∧
    (s.setupPayFrom env i).currentWidget = s.currentWidget ∧
    (s.setupPayFrom env i).ui.payTo = s.ui.payTo ∧
    (s.setupPayFrom env i).ui.payTo_is = s.ui.payTo_is ∧
    (s.setupPayFrom env i).ui.payTo_s = s.ui.payTo_s := by
  unfold SendFuturesEntry.setupPayFrom
  cases hm : s.model with
  | none => simp [hm]
  | some m =>
    cases ho : m.getOptionsModel with
    | none => simp [hm, ho]
    | some o =>
      by_cases h : m.getAddressBalances.isEmpty = true <;> simp [h, hm, ho]

theorem updateDisplayUnit_frame (env : Collab D W) (s : SendFuturesEntry D W) :
    (s.updateDisplayUnit env).recipient = s.recipient ∧
    (s.updateDisplayUnit env).model = s.model ∧
    (s.updateDisplayUnit env).currentWidget = s.currentWidget ∧
    (s.updateDisplayUnit env).ui.payTo = s.ui.payTo ∧
    (s.updateDisplayUnit env).ui.payTo_is = s.ui.payTo_is ∧
    (s.updateDisplayUnit env).ui.payTo_s = s.ui.payTo_s := by
  unfold SendFuturesEntry.updateDisplayUnit
  cases hm : s.model with
  | none => simp [hm]
  | some m =>
    cases ho : m.getOptionsModel with
    | none => simp [hm, ho]
    | some o =>
      simp only [ho]
      refine ⟨?_, ?_, ?_, ?_, ?_, ?_⟩
      · rw [(setupPayFrom_frame env _ _).1]
      · rw [(setupPayFrom_frame env _ _).2.1]
      · rw [(setupPayFrom_frame env _ _).2.2.1]
      · rw [(setupPayFrom_frame env _ _).2.2.2.1]
      · rw [(setupPayFrom_frame env _ _).2.2.2.2.1]
      · rw [(setupPayFrom_frame env _ _).2.2.2.2.2]

@[simp] theorem updateLabel_recipient (s : SendFuturesEntry D W) (a : String) :
    ((s.updateLabel a).2).recipient = s.recipient :=
  (updateLabel_frame s a).1

@[simp] theorem updateLabel_model (s : SendFuturesEntry D W) (a : String) :
    ((s.updateLabel a).2).model = s.model :=
  (updateLabel_frame s a).2.1

@[simp] theorem updateLabel_currentWidget (s : SendFuturesEntry D W) (a : String) :
    ((s.updateLabel a).2).currentWidget = s.currentWidget :=
  (updateLabel_frame s a).2.2.1

@[simp] theorem updateLabel_payTo (s : SendFuturesEntry D W) (a : String) :
    ((s.updateLabel a).2).ui.payTo = s.ui.payTo :=
  (updateLabel_frame s a).2.2.2.1

@[simp] theorem updateLabel_payFrom (s : SendFuturesEntry D W) (a : String) :
    ((s.updateLabel a).2).ui.payFrom = s.ui.payFrom :=
  (updateLabel_frame s a).2.2.2.2.1

@[simp] theorem updateLabel_payAmount (s : SendFuturesEntry D W) (a : String) :
    ((s.updateLabel a).2).ui.payAmount = s.ui.payAmount :=
  (updateLabel_frame s a).2.2.2.2.2.1

@[simp] theorem updateLabel_payTo_is (s : SendFuturesEntry D W) (a : String) :
    ((s.updateLabel a).2).ui.payTo_is = s.ui.payTo_is :=
  (updateLabel_frame s a).2.2.2.2.2.2.1

@[simp] theorem updateLabel_payTo_s (s : SendFuturesEntry D W) (a : String) :
    ((s.updateLabel a).2).ui.payTo_s = s.ui.payTo_s :=
  (updateLabel_frame s a).2.2.2.2.2.2.2.1

@[simp] theorem updateLabel_ftxMaturity (s : SendFuturesEntry D W) (a : String) :
    ((s.updateLabel a).2).ui.ftxMaturity = s.ui.ftxMaturity :=
  (updateLabel_frame s a).2.2.2.2.2.2.2.2.1

@[simp] theorem updateLabel_ftxLockTimeField (s : SendFuturesEntry D W) (a : String) :
    ((s.updateLabel a).2).ui.ftxLockTimeField = s.ui.ftxLockTimeField :=
  (updateLabel_frame s a).2.2.2.2.2.2.2.2.2.1

@[simp] theorem updateLabel_messageTextLabel (s : SendFuturesEntry D W) (a : String) :
    ((s.updateLabel a).2).ui.messageTextLabel = s.ui.messageTextLabel :=
  (updateLabel_frame s a).2.2.2.2.2.2.2.2.2.2.1

@[simp] theorem updateLabel_checkbox (s : SendFuturesEntry D W) (a : String) :
    ((s.updateLabel a).2).ui.checkboxSubtractFeeFromAmount = s.ui.checkboxSubtractFeeFromAmount :=
  (updateLabel_frame s a).2.2.2.2.2.2.2.2.2.2.2

@[simp] theorem payTo_setText_recipient (s : SendFuturesEntry D W) (t : String) :
    (s.payTo_setText t).recipient = s.recipient :=
  (payTo_setText_frame s t).1

@[simp] theorem payTo_setText_model (s : SendFuturesEntry D W) (t : String) :
    (s.payTo_setText t).model = s.model :=
  (payTo_setText_frame s t).2.1

@[simp] theorem payTo_setText_currentWidget (s : SendFuturesEntry D W) (t : String) :
    (s.payTo_setText t).currentWidget = s.currentWidget :=
  (payTo_setText_frame s t).2.2.1

@[simp] theorem payTo_setText_payTo_text (s : SendFuturesEntry D W) (t : String) :
    (s.payTo_setText t).ui.payTo.text = t :=
  (payTo_setText_frame s t).2.2.2.1

@[simp] theorem payTo_setText_payFrom (s : SendFuturesEntry D W) (t : String) :
    (s.payTo_setText t).ui.payFrom = s.ui.payFrom :=
  (payTo_setText_frame s t).2.2.2.2.1

@[simp] theorem payTo_setText_payAmount (s : SendFuturesEntry D W) (t : String) :
    (s.payTo_setText t).ui.payAmount = s.ui.payAmount :=
  (payTo_setText_frame s t).2.2.2.2.2.1

@[simp] theorem payTo_setText_payTo_is (s : SendFuturesEntry D W) (t : String) :
    (s.payTo_setText t).ui.payTo_is = s.ui.payTo_is :=
  (payTo_setText_frame s t).2.2.2.2.2.2.1

@[simp] theorem payTo_setText_payTo_s (s : SendFuturesEntry D W) (t : String) :
    (s.payTo_setText t).ui.payTo_s = s.ui.payTo_s :=
  (payTo_setText_frame s t).2.2.2.2.2.2.2.1

@[simp] theorem payTo_setText_ftxMaturity (s : SendFuturesEntry D W) (t : String) :
    (s.payTo_setText t).ui.ftxMaturity = s.ui.ftxMaturity :=
  (payTo_setText_frame s t).2.2.2.2.2.2.2.2.1

@[simp] theorem payTo_setText_ftxLockTimeField (s : SendFuturesEntry D W) (t : String) :
    (s.payTo_setText t).ui.ftxLockTimeField = s.ui.ftxLockTimeField :=
  (payTo_setText_frame s t).2.2.2.2.2.2.2.2.2.1

@[simp] theorem payTo_setText_messageTextLabel (s : SendFuturesEntry D W) (t : String) :
    (s.payTo_setText t).ui.messageTextLabel = s.ui.messageTextLabel :=
  (payTo_setText_frame s t).2.2.2.2.2.2.2.2.2.2.1

@[simp] theorem payTo_setText_checkbox (s : SendFuturesEntry D W) (t : String) :
    (s.payTo_setText t).ui.checkboxSubtractFeeFromAmount = s.ui.checkboxSubtractFeeFromAmount :=
  (payTo_setText_frame s t).2.2.2.2.2.2.2.2.2.2.2

@[simp] theorem ftxLockTime_setDateTime_recipient (s : SendFuturesEntry D W) (dt clock : QDateTime) :
    (s.ftxLockTime_setDateTime dt clock).recipient = s.recipient :=
  (ftxLockTime_setDateTime_frame s dt clock).1

@[simp] theorem ftxLockTime_setDateTime_model (s : SendFuturesEntry D W) (dt clock : QDateTime) :
    (s.ftxLockTime_setDateTime dt clock).model = s.model :=
  (ftxLockTime_setDateTime_frame s dt clock).2.1

@[simp] theorem ftxLockTime_setDateTime_currentWidget (s : SendFuturesEntry D W) (dt clock : QDateTime) :
    (s.ftxLockTime_setDateTime dt clock).currentWidget = s.currentWidget :=
  (ftxLockTime_setDateTime_frame s dt clock).2.2.1

@[simp] theorem ftxLockTime_setDateTime_payTo (s : SendFuturesEntry D W) (dt clock : QDateTime) :
    (s.ftxLockTime_setDateTime dt clock).ui.payTo = s.ui.payTo :=
  (ftxLockTime_setDateTime_frame s dt clock).2.2.2.1

@[simp] theorem ftxLockTime_setDateTime_payFrom (s : SendFuturesEntry D W) (dt clock : QDateTime) :
    (s.ftxLockTime_setDateTime dt clock).ui.payFrom = s.ui.payFrom :=
  (ftxLockTime_setDateTime_frame s dt clock).2.2.2.2.1

@[simp] theorem ftxLockTime_setDateTime_payTo_is (s : SendFuturesEntry D W) (dt clock : QDateTime) :
    (s.ftxLockTime_setDateTime dt clock).ui.payTo_is = s.ui.payTo_is :=
  (ftxLockTime_setDateTime_frame s dt clock).2.2.2.2.2.1

@[simp] theorem ftxLockTime_setDateTime_payTo_s (s : SendFuturesEntry D W) (dt clock : QDateTime) :
    (s.ftxLockTime_setDateTime dt clock).ui.payTo_s = s.ui.payTo_s :=
  (ftxLockTime_setDateTime_frame s dt clock).2.2.2.2.2.2

@[simp] theorem setupPayFrom_recipient (env : Collab D W) (s : SendFuturesEntry D W) (i : Int) :
    (s.setupPayFrom env i).recipient = s.recipient :=
  (setupPayFrom_frame env s i).1

@[simp] theorem setupPayFrom_model (env : Collab D W) (s : SendFuturesEntry D W) (i : Int) :
    (s.setupPayFrom env i).model = s.model :=
  (setupPayFrom_frame env s i).2.1

@[simp] theorem setupPayFrom_currentWidget (env : Collab D W) (s : SendFuturesEntry D W) (i : Int) :
    (s.setupPayFrom env i).currentWidget = s.currentWidget :=
  (setupPayFrom_frame env s i).2.2.1

@[simp] theorem setupPayFrom_payTo (env : Collab D W) (s : SendFuturesEntry D W) (i : Int) :
    (s.setupPayFrom env i).ui.payTo = s.ui.payTo :=
  (setupPayFrom_frame env s i).2.2.2.1

@[simp] theorem setupPayFrom_payTo_is (env : Collab D W) (s : SendFuturesEntry D W) (i : Int) :
    (s.setupPayFrom env i).ui.payTo_is = s.ui.payTo_is :=
  (setupPayFrom_frame env s i).2.2.2.2.1

@[simp] theorem setupPayFrom_payTo_s (env : Collab D W) (s : SendFuturesEntry D W) (i : Int) :
    (s.setupPayFrom env i).ui.payTo_s = s.ui.payTo_s :=
  (setupPayFrom_frame env s i).2.2.2.2.2

@[simp] theorem updateDisplayUnit_recipient (env : Collab D W) (s : SendFuturesEntry D W) :
    (s.updateDisplayUnit env).recipient = s.recipient :=
  (updateDisplayUnit_frame env s).1

@[simp] theorem updateDisplayUnit_model (env : Collab D W) (s : SendFuturesEntry D W) :
    (s.updateDisplayUnit env).model = s.model :=
  (updateDisplayUnit_frame env s).2.1

@[simp] theorem updateDisplayUnit_currentWidget (env : Collab D W) (s : SendFuturesEntry D W) :
    (s.updateDisplayUnit env).currentWidget = s.currentWidget :=
  (updateDisplayUnit_frame env s).2.2.1

@[simp] theorem updateDisplayUnit_payTo (env : Collab D W) (s : SendFuturesEntry D W) :
    (s.updateDisplayUnit env).ui.payTo = s.ui.payTo :=
  (updateDisplayUnit_frame env s).2.2.2.1

@[simp] theorem updateDisplayUnit_payTo_is (env : Collab D W) (s : SendFuturesEntry D W) :
    (s.updateDisplayUnit env).ui.payTo_is = s.ui.payTo_is :=
  (updateDisplayUnit_frame env s).2.2.2.2.1

@[simp] theorem updateDisplayUnit_payTo_s (env : Collab D W) (s : SendFuturesEntry D W) :
    (s.updateDisplayUnit env).ui.payTo_s = s.ui.payTo_s :=
  (updateDisplayUnit_frame env s).2.2.2.2.2

theorem clearFields_frame (env : Collab D W) (s : SendFuturesEntry D W)
    (now clock : QDateTime) :
    (s.clearFields env now clock).recipient = s.recipient ∧
    (s.clearFields env now clock).model = s.model ∧
    (s.clearFields env now clock).currentWidget = s.currentWidget ∧
    (s.clearFields env now clock).ui.payFrom = s.ui.payFrom ∧
    (s.clearFields env now clock).ui.payTo.text = "" ∧
    (s.clearFields env now clock).ui.payTo_is = "" ∧
    (s.clearFields env now clock).ui.payTo_s = "" := by
  unfold SendFuturesEntry.clearFields
  simp

theorem clear_frame (env : Collab D W) (s : SendFuturesEntry D W) (now clock : QDateTime) :
    (s.clear env now clock).recipient = s.recipient ∧
    (s.clear env now clock).model = s.model ∧
    (s.clear env now clock).currentWidget = s.currentWidget ∧
    (s.clear env now clock).ui.payTo.text = "" ∧
    (s.clear env now clock).ui.payTo_is = "" ∧
    (s.clear env now clock).ui.payTo_s = "" := by
  obtain ⟨h1, h2, h3, _, h5, h6, h7⟩ := clearFields_frame env s now clock
  unfold SendFuturesEntry.clear
  simp [h1, h2, h3, h5, h6, h7]

end Frame

section Validate

variable {D W : Type}

/-- C1: with a wallet model configured and no payment-request payload,
`validate` returns true exactly when the source address and the destination
address pass the address check, the amount widget validates, the amount is
positive and (destination, amount) is not dust. -/
theorem validate_true_iff (env : Collab D W) (s : SendFuturesEntry D W) (m : WalletModel D)
    (hm : s.model = some m) (hp : s.recipient.paymentRequest.IsInitialized = false) :
    (s.validate env).1 = true ↔
      (m.validateAddress s.ui.payFrom.currentText = true ∧
       m.validateAddress s.ui.payTo.text = true ∧
       (env.amountField.validate s.ui.payAmount).1 = true ∧
       0 < validatedAmount env s ∧
       env.isDust s.ui.payTo.text (validatedAmount env s) = false) := by
  unfold SendFuturesEntry.validate validatedAmount
  simp only [hm, hp]
  by_cases h1 : m.validateAddress s.ui.payFrom.currentText = true <;>
  by_cases h2 : m.validateAddress s.ui.payTo.text = true <;>
  by_cases h3 : (env.amountField.validate s.ui.payAmount).1 = true <;>
  by_cases h4 : env.amountField.value (env.amountField.validate s.ui.payAmount).2 ≤ 0 <;>
  by_cases h5 : env.isDust s.ui.payTo.text
      (env.amountField.value (env.amountField.validate s.ui.payAmount).2) = true <;>
  all_goals simp [h1, h2, h3, h4, h5]
  exact Int.not_le.mp h4

/-- C1 at the filled sample entry: addrA selected, 250 to dest; every rule passes. -/
theorem validate_true_iff_witness :
    ((walletEntry.setValue sampleCollab normalRecipient).choosePayFrom 1).model
        = some sampleWallet ∧
    (((walletEntry.setValue sampleCollab normalRecipient).choosePayFrom 1).validate
        sampleCollab).1 = true :=
  ⟨rfl, (validate_true_iff sampleCollab
    ((walletEntry.setValue sampleCollab normalRecipient).choosePayFrom 1) sampleWallet
    rfl rfl).mpr (by decide)⟩

/-- C2, as stated, fails: an entry that holds a payment request but has no
wallet model attached does not validate. -/
theorem validate_request_without_model :
    (freshEntry.setValue sampleCollab requestRecipient).recipient.paymentRequest.IsInitialized
        = true ∧
    ((freshEntry.setValue sampleCollab requestRecipient).validate sampleCollab).1 = false := by
  decide

/-- C2 (amended): with a payment-request payload stored, `validate` returns
true exactly when a wallet model is attached, whatever the form controls
hold, and leaves the entry as it is. -/
theorem validate_request (env : Collab D W) (s : SendFuturesEntry D W)
    (hp : s.recipient.paymentRequest.IsInitialized = true) :
    s.validate env = (s.model.isSome, s) := by
  unfold SendFuturesEntry.validate
  cases hm : s.model with
  | none => rfl
  | some m => simp [hp]

/-- C2 (amended) at the sample entry holding an empty payment request. -/
theorem validate_request_witness :
    (walletEntry.setValue sampleCollab requestRecipient).ui.payTo.text = "" ∧
    (walletEntry.setValue sampleCollab requestRecipient).validate sampleCollab =
      (true, walletEntry.setValue sampleCollab requestRecipient) :=
  ⟨by decide, validate_request sampleCollab (walletEntry.setValue sampleCollab requestRecipient)
    rfl⟩

/-- C3, as stated, fails: with a payment request stored the amount is not
looked at, so an amount of 0 still validates. -/
theorem validate_zero_amount_request :
    validatedAmount sampleCollab (walletEntry.setValue sampleCollab requestRecipient) = 0 ∧
    (walletEntry.setValue sampleCollab requestRecipient).recipient.amount = 0 ∧
    ((walletEntry.setValue sampleCollab requestRecipient).validate sampleCollab).1 = true := by
  decide

/-- C3 (amended): with no payment-request payload stored, an amount of 0 or
less makes `validate` return false, whatever the address checks say. -/
theorem validate_nonpositive_amount (env : Collab D W) (s : SendFuturesEntry D W)
    (hp : s.recipient.paymentRequest.IsInitialized = false)
    (ha : validatedAmount env s ≤ 0) :
    (s.validate env).1 = false := by
  unfold validatedAmount at ha
  unfold SendFuturesEntry.validate
  cases hm : s.model with
  | none => rfl
  | some m =>
    simp only [hp]
    by_cases h2 : m.validateAddress s.ui.payTo.text = true <;> simp [h2, ha]

/-- C3 (amended) at the sample entry with valid addresses and amount 0. -/
theorem validate_nonpositive_amount_witness :
    (((walletEntry.setValue sampleCollab { normalRecipient with amount := 0 }).choosePayFrom
        1).validate sampleCollab).1 = false :=
  validate_nonpositive_amount sampleCollab
    ((walletEntry.setValue sampleCollab { normalRecipient with amount := 0 }).choosePayFrom 1)
    rfl (by decide)

end Validate

section PayFrom

variable {D W : Type}

/-- C4: with a wallet model and options model attached, a non-empty balance
list `B` and fee `T`, `setupPayFrom` builds the placeholder row followed by
one row per entry of `B` whose balance is at least `T`, in the order of `B`;
the placeholder is not among the rows that follow it. -/
theorem setupPayFrom_rows (env : Collab D W) (s : SendFuturesEntry D W) (m : WalletModel D)
    (o : OptionsModel) (selected : Int) (B : List (D × CAmount)) (T : CAmount)
    (hm : s.model = some m) (ho : m.getOptionsModel = some o)
    (hB : m.getAddressBalances = B) (hT : env.getFutureFees = T) (hne : B ≠ []) :
    (s.setupPayFrom env selected).ui.payFrom.rows =
      placeholder :: (B.filter (fun b => decide (T ≤ b.2))).map (balanceRow env m o.getDisplayUnit) ∧
    (s.setupPayFrom env selected).ui.payFrom.rows[0]? = some placeholder ∧
    placeholder ∉ (s.setupPayFrom env selected).ui.payFrom.rows.tail ∧
    (∀ b ∈ B, b.2 < T →
      b ∉ B.filter (fun b => decide (T ≤ b.2))) := by
  have hrows : (s.setupPayFrom env selected).ui.payFrom.rows =
      placeholder :: (B.filter (fun b => decide (T ≤ b.2))).map
        (balanceRow env m o.getDisplayUnit) := by
    unfold SendFuturesEntry.setupPayFrom
    have hE : B.isEmpty = false := by
      cases B with
      | nil => exact absurd rfl hne
      | cons _ _ => rfl
    simp [hm, ho, hB, hT, hE, QComboBox.setModel, QComboBox.setCurrentIndex]
  refine ⟨hrows, ?_, ?_, ?_⟩
  · rw [hrows]; simp
  · rw [hrows]
    simp only [List.tail_cons, List.mem_map, not_exists, not_and]
    intro b _ hb
    simp [balanceRow, placeholder] at hb
  · intro b _ hlt hmem
    have := (List.mem_filter.mp hmem).2
    simp only [decide_eq_true_eq] at this
    exact absurd this (not_le.mpr hlt)

/-- C4 on the scenario of the spec: balances (addrA, 500), (addrB, 50) and fee 100
leave addrA as the only eligible source. -/
theorem setupPayFrom_rows_witness :
    eligibleAddresses (walletEntry.setupPayFrom sampleCollab 0).ui.payFrom = ["addrA"] ∧
    (walletEntry.setupPayFrom sampleCollab 0).ui.payFrom.rows =
      placeholder :: ([("addrA", (500 : CAmount)), ("addrB", 50)].filter
        (fun b => decide ((100 : CAmount) ≤ b.2))).map (balanceRow sampleCollab sampleWallet 0) :=
  ⟨by decide, (setupPayFrom_rows sampleCollab walletEntry sampleWallet ⟨0⟩ 0
    [("addrA", 500), ("addrB", 50)] 100 rfl rfl rfl rfl (by decide)).1⟩

theorem setupPayFrom_payFrom (env : Collab D W) (s : SendFuturesEntry D W) (m : WalletModel D)
    (o : OptionsModel) (i : Int) (hm : s.model = some m) (ho : m.getOptionsModel = some o)
    (hne : m.getAddressBalances ≠ []) :
    (s.setupPayFrom env i).ui.payFrom.rows = sourceRows env m o ∧
    (s.setupPayFrom env i).ui.payFrom.currentIndex =
      if 0 ≤ i ∧ i < ((sourceRows env m o).length : Int) then i else -1 := by
  unfold SendFuturesEntry.setupPayFrom
  have hE : m.getAddressBalances.isEmpty = false := by
    cases hb : m.getAddressBalances with
    | nil => exact absurd hb hne
    | cons _ _ => rfl
  simp [hm, ho, hE, QComboBox.setModel, QComboBox.setCurrentIndex, sourceRows]

theorem updateDisplayUnit_payFrom (env : Collab D W) (s : SendFuturesEntry D W)
    (m : WalletModel D) (o : OptionsModel) (hm : s.model = some m)
    (ho : m.getOptionsModel = some o) (hne : m.getAddressBalances ≠ []) :
    (s.updateDisplayUnit env).ui.payFrom.rows = sourceRows env m o ∧
    (s.updateDisplayUnit env).ui.payFrom.currentIndex =
      if 0 ≤ s.ui.payFrom.currentIndex ∧
          s.ui.payFrom.currentIndex < ((sourceRows env m o).length : Int)
      then s.ui.payFrom.currentIndex else -1 := by
  unfold SendFuturesEntry.updateDisplayUnit
  simp only [hm, ho]
  exact setupPayFrom_payFrom env _ m o _ rfl ho hne

theorem clear_payFrom (env : Collab D W) (s : SendFuturesEntry D W) (m : WalletModel D)
    (o : OptionsModel) (now clock : QDateTime) (hm : s.model = some m)
    (ho : m.getOptionsModel = some o) (hne : m.getAddressBalances ≠ []) :
    (s.clear env now clock).ui.payFrom.rows = sourceRows env m o ∧
    (s.clear env now clock).ui.payFrom.currentIndex =
      if 0 ≤ s.ui.payFrom.currentIndex ∧
          s.ui.payFrom.currentIndex < ((sourceRows env m o).length : Int)
      then s.ui.payFrom.currentIndex else -1 := by
  obtain ⟨_, h2, _, h4, _⟩ := clearFields_frame env s now clock
  have h := updateDisplayUnit_payFrom env (s.clearFields env now clock) m o
    (by rw [h2]; exact hm) ho hne
  rw [h4] at h
  exact h

/-- The balance-changed slot selects the placeholder row whenever it rebuilds the table. -/
theorem balanceChange_selects_placeholder (env : Collab D W) (s : SendFuturesEntry D W)
    (m : WalletModel D) (o : OptionsModel) (balance : CAmount)
    (hm : s.model = some m) (ho : m.getOptionsModel = some o)
    (hne : m.getAddressBalances ≠ []) :
    (s.balanceChange env balance).ui.payFrom.currentIndex = 0 := by
  have hlen : (0 : Int) < ((sourceRows env m o).length : Int) := by
    simp [sourceRows]
  unfold SendFuturesEntry.balanceChange
  rw [(setupPayFrom_payFrom env s m o 0 hm ho hne).2]
  simp [hlen]

/-- Attaching a wallet, from any entry state (a first attach included),
selects the placeholder row whenever the table is rebuilt. -/
theorem setModel_selects_placeholder (env : Collab D W) (s : SendFuturesEntry D W)
    (m : WalletModel D) (o : OptionsModel) (now clock : QDateTime)
    (ho : m.getOptionsModel = some o) (hne : m.getAddressBalances ≠ []) :
    (s.setModel env (some m) now clock).ui.payFrom.currentIndex = 0 := by
  have hlen : (0 : Int) < ((sourceRows env m o).length : Int) := by
    simp [sourceRows]
  unfold SendFuturesEntry.setModel
  simp only [ho]
  have h1 := setupPayFrom_payFrom env ({ s with model := some m } : SendFuturesEntry D W)
    m o 0 rfl ho hne
  rw [(clear_payFrom env _ m o now clock (by simp) ho hne).2, h1.2]
  simp [hlen]

/-- The display-unit slot re-selects the row index selected before the
rebuild, or no row when that index is outside the rebuilt table. -/
theorem updateDisplayUnit_reselects_index (env : Collab D W) (s : SendFuturesEntry D W)
    (m : WalletModel D) (o : OptionsModel)
    (hm : s.model = some m) (ho : m.getOptionsModel = some o)
    (hne : m.getAddressBalances ≠ []) :
    (s.updateDisplayUnit env).ui.payFrom.currentIndex =
      (if 0 ≤ s.ui.payFrom.currentIndex ∧
          s.ui.payFrom.currentIndex < ((s.updateDisplayUnit env).ui.payFrom.rows.length : Int)
       then s.ui.payFrom.currentIndex else -1) := by
  rw [(updateDisplayUnit_payFrom env s m o hm ho hne).1]
  exact (updateDisplayUnit_payFrom env s m o hm ho hne).2

/-- C9 fails on the code: the filled sample entry has addrA selected at row 1;
the balances change so that addrA is no longer eligible and addrB is.  The
display-unit rebuild re-selects row 1, which is now addrB, and the swapped
source passes `validate` and is returned by `getValue`; on the same entry
the balance-changed slot and `setModel` select the placeholder. -/
theorem updateDisplayUnit_replaces_source :
    filledEntry.ui.payFrom.currentText = "addrA" ∧
    eligibleAddresses
      ((walletNow filledEntry sampleWalletLater).updateDisplayUnit sampleCollab).ui.payFrom
      = ["addrB"] ∧
    ((walletNow filledEntry sampleWalletLater).updateDisplayUnit
      sampleCollab).ui.payFrom.currentIndex = 1 ∧
    ((walletNow filledEntry sampleWalletLater).updateDisplayUnit
      sampleCollab).ui.payFrom.currentText = "addrB" ∧
    (((walletNow filledEntry sampleWalletLater).updateDisplayUnit sampleCollab).validate
      sampleCollab).1 = true ∧
    (((walletNow filledEntry sampleWalletLater).updateDisplayUnit sampleCollab).getValue
      sampleCollab).1.payFrom = "addrB" ∧
    ((walletNow filledEntry sampleWalletLater).balanceChange
      sampleCollab 0).ui.payFrom.currentIndex = 0 ∧
    ((walletNow filledEntry sampleWalletLater).setModel sampleCollab (some sampleWalletLater)
      t0 t0).ui.payFrom.currentIndex = 0 := by
  decide

end PayFrom

section LockTime

variable {D W : Type}

theorem tdiv_thousand_nonpos (x : Int) (h : x ≤ 0) : x.tdiv 1000 ≤ 0 := by
  have h1 : 0 ≤ (-x).tdiv 1000 := Int.tdiv_nonneg (by omega) (by omega)
  rw [Int.neg_tdiv] at h1
  omega

/-- C5: `getLockTime` stores the decimal text of a lock-time that equals the
seconds from now to the target when that number is positive and is -1 when
the target is at or before now; it is never 0.  For a valid clock, a target
10 s in the past gives -1 and a target 3600 s ahead gives 3600. -/
theorem getLockTime_futureTime (s : SendFuturesEntry D W) (now target : QDateTime) :
    (s.getLockTime now target).ui.ftxLockTimeField = QString.number (futureTime now target) ∧
    (0 < now.secsTo target → futureTime now target = now.secsTo target) ∧
    (target.msecs ≤ now.msecs → futureTime now target = -1) ∧
    futureTime now target ≠ 0 ∧
    (now.valid = true → futureTime now (now.addSecs (-10)) = -1) ∧
    (now.valid = true → futureTime now (now.addSecs 3600) = 3600) := by
  refine ⟨rfl, ?_, ?_, ?_, ?_, ?_⟩
  · intro h
    simp [futureTime, h]
  · intro h
    have h0 : now.secsTo target ≤ 0 := by
      unfold QDateTime.secsTo
      split
      · exact tdiv_thousand_nonpos _ (by omega)
      · exact le_refl 0
    simp [futureTime, Int.not_lt.mpr h0]
  · unfold futureTime
    split <;> omega
  · intro hv
    have h0 : now.secsTo (now.addSecs (-10)) = -10 := by
      simp [QDateTime.secsTo, QDateTime.addSecs, hv]
      rfl
    simp [futureTime, h0]
  · intro hv
    have h0 : now.secsTo (now.addSecs 3600) = 3600 := by
      simp [QDateTime.secsTo, QDateTime.addSecs, hv]
      rfl
    simp [futureTime, h0]

/-- C5 at the sample clock: 10 s back gives "-1", 3600 s ahead gives "3600". -/
theorem getLockTime_futureTime_witness :
    (freshEntry.getLockTime t0 (t0.addSecs (-10))).ui.ftxLockTimeField = "-1" ∧
    (freshEntry.getLockTime t0 (t0.addSecs 3600)).ui.ftxLockTimeField = "3600" ∧
    futureTime t0 (t0.addSecs (-10)) = -1 ∧
    futureTime t0 (t0.addSecs 3600) = 3600 :=
  ⟨by decide, by decide,
   (getLockTime_futureTime freshEntry t0 t0).2.2.2.2.1 rfl,
   (getLockTime_futureTime freshEntry t0 t0).2.2.2.2.2 rfl⟩

end LockTime

section Value

variable {D W : Type}

/-- The page shown after `setValue`: a request page for a recipient with a
payload, the page shown before for a recipient without one. -/
theorem setValue_currentWidget (env : Collab D W) (s : SendFuturesEntry D W)
    (r : SendCoinsRecipient) :
    (s.setValue env r).currentWidget =
      if r.paymentRequest.IsInitialized then
        (if r.authenticatedMerchant.isEmpty then Page.SendCoins_UnauthenticatedPaymentRequest
         else Page.SendCoins_AuthenticatedPaymentRequest)
      else s.currentWidget := by
  unfold SendFuturesEntry.setValue
  by_cases hp : r.paymentRequest.IsInitialized = true
  · by_cases ha : r.authenticatedMerchant.isEmpty = true <;> simp [hp, ha]
  · by_cases hl : r.label.isEmpty = true <;> simp [hp, hl]

/-- C6, as stated, fails: on the cleared sample entry the source address,
maturity and lock-time of the recipient read back are those of the controls
(placeholder selected, maturity -1, empty lock-time text), not those of the
recipient that was set. -/
theorem getValue_setValue_differs :
    normalRecipient.paymentRequest.IsInitialized = false ∧ normalRecipient.label ≠ "" ∧
    ((walletEntry.setValue sampleCollab normalRecipient).getValue sampleCollab).1
      ≠ normalRecipient ∧
    ((walletEntry.setValue sampleCollab normalRecipient).getValue sampleCollab).1 =
      { normalRecipient with
        payFrom := "Select a Raptoreum address", maturity := -1, locktime := 0 } := by
  decide

/-- C6 (amended): for a recipient `r` without payload and with a non-empty
label, on an entry whose amount widget reads back `r.amount`, `getValue`
after `setValue r` returns `r` with its source address, maturity, lock-time
and subtract-fee flag replaced by what the controls held before the call; it
returns `r` itself exactly when those four controls already agree with `r`. -/
theorem getValue_setValue (env : Collab D W) (s : SendFuturesEntry D W)
    (r : SendCoinsRecipient)
    (hp : r.paymentRequest.IsInitialized = false) (hl : r.label ≠ "")
    (ha : env.amountField.value (env.amountField.setValue r.amount s.ui.payAmount) = r.amount) :
    ((s.setValue env r).getValue env).1 =
      { r with
        payFrom := s.ui.payFrom.currentText
        maturity := s.ui.ftxMaturity
        locktime := env.toInt s.ui.ftxLockTimeField
        fSubtractFeeFromAmount := s.ui.checkboxSubtractFeeFromAmount } ∧
    (((s.setValue env r).getValue env).1 = r ↔
      (s.ui.payFrom.currentText = r.payFrom ∧ s.ui.ftxMaturity = r.maturity ∧
       env.toInt s.ui.ftxLockTimeField = r.locktime ∧
       s.ui.checkboxSubtractFeeFromAmount = r.fSubtractFeeFromAmount)) := by
  have hl2 : r.label.isEmpty = false := by
    cases h : r.label.isEmpty with
    | false => rfl
    | true => exact absurd ((String.isEmpty_iff _).mp h) hl
  have key : ((s.setValue env r).getValue env).1 =
      { r with
        payFrom := s.ui.payFrom.currentText
        maturity := s.ui.ftxMaturity
        locktime := env.toInt s.ui.ftxLockTimeField
        fSubtractFeeFromAmount := s.ui.checkboxSubtractFeeFromAmount } := by
    unfold SendFuturesEntry.getValue SendFuturesEntry.setValue
    simp [hp, hl2, ha]
  refine ⟨key, ?_⟩
  rw [key]
  constructor
  · intro h
    have e1 := congrArg SendCoinsRecipient.payFrom h
    have e2 := congrArg SendCoinsRecipient.maturity h
    have e3 := congrArg SendCoinsRecipient.locktime h
    have e4 := congrArg SendCoinsRecipient.fSubtractFeeFromAmount h
    exact ⟨e1, e2, e3, e4⟩
  · rintro ⟨e1, e2, e3, e4⟩
    rw [e1, e2, e3, e4]

/-- C6 (amended) on a sample entry whose controls already show addrA,
maturity 7, lock-time 3600 and an unchecked subtract-fee box: the round trip
returns the recipient itself. -/
theorem getValue_setValue_witness :
    ((preparedEntry.setValue sampleCollab normalRecipient).getValue sampleCollab).1
      = normalRecipient :=
  (getValue_setValue sampleCollab preparedEntry normalRecipient rfl (by decide) rfl).2.mpr
    (by decide)

/-- C7 fails on the code: after a payment request was shown, `setValue` of a
recipient without payload leaves the request page displayed. -/
theorem setValue_normal_after_request :
    normalRecipient.paymentRequest.IsInitialized = false ∧
    ((freshEntry.setValue sampleCollab requestRecipient).setValue sampleCollab
      normalRecipient).currentWidget = Page.SendCoins_UnauthenticatedPaymentRequest := by
  decide

/-- C10: after `clear` the entry reports clear, and after `setAddress` of a
non-empty address it does not. -/
theorem isClear_after_clear_setAddress (env : Collab D W) (s : SendFuturesEntry D W)
    (now clock : QDateTime) (X : String) (hX : X ≠ "") :
    (s.clear env now clock).isClear = true ∧ (s.setAddress X).isClear = false := by
  obtain ⟨_, _, _, h4, h5, h6⟩ := clear_frame env s now clock
  constructor
  · unfold SendFuturesEntry.isClear
    rw [h4, h5, h6]
    rfl
  · have hX2 : X.isEmpty = false := by
      cases h : X.isEmpty with
      | false => rfl
      | true => exact absurd ((String.isEmpty_iff _).mp h) hX
    unfold SendFuturesEntry.isClear SendFuturesEntry.setAddress
    simp [hX2]

/-- C10 on the scenario of the spec: address "X". -/
theorem isClear_after_clear_setAddress_witness :
    (walletEntry.clear sampleCollab t0 t0).isClear = true ∧
    (walletEntry.setAddress "X").isClear = false :=
  isClear_after_clear_setAddress sampleCollab walletEntry t0 t0 "X" (by decide)

end Value

end SendFutures
